import Mathlib

/-!
Verification development for the typingmind-mcp repository.

The JavaScript sources are shallowly embedded in Lean:
* strings are `String` (or `List Char` where character-level reasoning is
  needed), JS `undefined`-able values are `Option`,
* JS numbers are `ℚ` (exact rationals; `toFixed(2)` becomes decimal rounding),
* environment state (`process.env`, `new Date()`, HTTP responses) is passed in
  explicitly through environment records,
* functions whose body can `throw` return `Except String _`; functions that
  catch all of their own errors return plain values, and we record whether a
  network call was attempted with explicit flags.
-/

/-! ## Generic JS-style string helpers -/

/-- Lower-case a character sequence (JS `toLowerCase`, ASCII fragment). -/
def lowerStr (l : List Char) : List Char := l.map Char.toLower

/-- Bool test: does `l` start with `pat`? (character-by-character). -/
def startsWithL : List Char → List Char → Bool
  | [], _ => true
  | _ :: _, [] => false
  | p :: ps, c :: cs => if p = c then startsWithL ps cs else false

/-- JS `String.prototype.includes`: `pat` occurs as a contiguous substring. -/
def containsSub (pat : List Char) : List Char → Bool
  | [] => pat.isEmpty
  | c :: rest => startsWithL pat (c :: rest) || containsSub pat rest

/-- Split `l` at the first occurrence of `pat`: returns the part strictly before
the first occurrence and the part strictly after it (meaningful when
`containsSub pat l = true`). -/
def splitFirst (pat : List Char) : List Char → List Char × List Char
  | [] => ([], [])
  | c :: rest =>
    if startsWithL pat (c :: rest) then ([], (c :: rest).drop pat.length)
    else
      let pr := splitFirst pat rest
      (c :: pr.1, pr.2)

/-- JS `String.prototype.replace` with a string pattern: replaces only the
first occurrence of `pat` by `rep`. -/
def replaceFirstL (pat rep : List Char) : List Char → List Char
  | [] => []
  | c :: rest =>
    if startsWithL pat (c :: rest) then rep ++ (c :: rest).drop pat.length
    else c :: replaceFirstL pat rep rest

/-- JS `s.split(sep)` for a single-character separator. -/
def splitOnCharL (sep : Char) : List Char → List (List Char)
  | [] => [[]]
  | c :: rest =>
    let ps := splitOnCharL sep rest
    if c = sep then [] :: ps
    else
      match ps with
      | [] => [[c]]
      | p :: rest2 => (c :: p) :: rest2

/-- Truthiness of a JS string-valued expression that may be `undefined`:
`undefined` and the empty string are falsy. -/
def jsFalsyStr (o : Option String) : Bool :=
  match o with
  | none => true
  | some s => s.isEmpty

/-- JS `x || d` for a possibly-undefined string `x`. -/
def jsOrStr (o : Option String) (d : String) : String :=
  match o with
  | none => d
  | some s => if s.isEmpty then d else s

/-- JS `x || d` for a possibly-undefined number `x` (0 is falsy). -/
def jsOrNat (o : Option Nat) (d : Nat) : Nat :=
  match o with
  | none => d
  | some n => if n = 0 then d else n

/-- JS `(x / 1000000) || 0`: for an absent metric the division yields `NaN`,
which `|| 0` turns into `0`; for a present metric the guard is the identity
(`0 || 0 = 0`). -/
def microsOrZero (o : Option ℚ) : ℚ :=
  match o with
  | none => 0
  | some v => v / 1000000

/-- JS `x < bound` where `x` may be `undefined` (comparison with `undefined`
is `NaN`-like and yields `false`). -/
def jsLtO (o : Option ℚ) (bound : ℚ) : Bool :=
  match o with
  | some x => decide (x < bound)
  | none => false

/-- JS `Number.prototype.toFixed(2)` followed by `parseFloat`: round to two
decimal places (ties away from zero on the positive values that occur here). -/
def round2 (q : ℚ) : ℚ := ((round (q * 100) : ℤ) : ℚ) / 100

/-- `Math.ceil(a / b)` for non-negative integers. -/
def ceilDiv (a b : Nat) : Nat := (a + b - 1) / b

/-- Strip all dashes from a string (the JS global-regex dash replacement). -/
def stripDashes (s : String) : String := String.mk (s.data.filter (fun c => c ≠ '-'))

/-! ## Report Analyzer (`analyzeGoogleAdsReport`, src/unnamed/part_000) -/

/-- A CRM lead; `date` is the epoch timestamp that `new Date(lead.date)`
denotes. -/
structure Lead where
  date : Int

/-- A search-term entry: the source accepts either a bare string or an object
with a (possibly absent) `term` field. -/
inductive TermObj where
  | str : String → TermObj
  | obj : Option String → TermObj

/-- A campaign entry as inspected by the analyzer; `ctr` and `conversionRate`
may be absent (`undefined`). -/
structure Campaign where
  ctr : Option ℚ := none
  conversionRate : Option ℚ := none

/-- The report object passed to the analyzer. -/
structure ReportData where
  leads : Option (List Lead) := none
  searchTerms : Option (List TermObj) := none
  campaigns : Option (List Campaign) := none

structure AnalysisDataPoints where
  totalLeads : Nat
  totalSearchTerms : Nat
  totalCampaigns : Nat
  deriving DecidableEq

structure AnalysisResult where
  recommendations : List String
  analysisDate : String
  dataPoints : AnalysisDataPoints
  deriving DecidableEq

/-- The fixed relevance vocabulary of the analyzer. -/
def relevantTerms : List String :=
  ["build", "renovation", "extension", "construction", "remodel", "home improvement"]

/-- `typeof termObj === 'string' ? termObj : termObj.term`, then
`(termStr || '').toLowerCase()`. -/
def termLowerOf : TermObj → List Char
  | .str s => lowerStr s.data
  | .obj t => lowerStr (t.getD "").data

/-- A term is unrelated when it contains none of the relevance vocabulary. -/
def isUnrelatedTerm (t : TermObj) : Bool :=
  !(relevantTerms.any (fun rel => containsSub rel.data (termLowerOf t)))

/-- The low-performer filter: `campaign.ctr < 0.02 || campaign.conversionRate < 0.01`. -/
def lowPerforming (c : Campaign) : Bool :=
  jsLtO c.ctr (2 / 100) || jsLtO c.conversionRate (1 / 100)

/-- Lead rule of the analyzer (`threeDaysAgo` is the current time minus three
calendar days, computed by the caller's environment). -/
def leadRecommendations (threeDaysAgo : Int) (rd : ReportData) : List String :=
  match rd.leads with
  | some leads =>
    if 0 < leads.length then
      if (leads.filter (fun lead => decide (threeDaysAgo ≤ lead.date))).length = 0 then
        ["No leads generated in the last 3 days - review campaign performance"]
      else []
    else ["No lead data found - check data export"]
  | none => ["No lead data found - check data export"]

/-- Search-term rule of the analyzer. -/
def searchTermRecommendations (rd : ReportData) : List String :=
  match rd.searchTerms with
  | some terms =>
    if 0 < terms.length then
      let unrelatedTerms := terms.filter isUnrelatedTerm
      if 0 < unrelatedTerms.length then
        ["Found " ++ toString unrelatedTerms.length ++
          " potentially unrelated search terms - review for negative keywords"]
      else []
    else []
  | none => []

/-- Campaign rule of the analyzer. -/
def campaignRecommendations (rd : ReportData) : List String :=
  match rd.campaigns with
  | some campaigns =>
    if 0 < campaigns.length then
      if 0 < (campaigns.filter lowPerforming).length then
        ["Suggest new creative for low-performing campaigns"]
      else []
    else []
  | none => []

/-- All recommendations pushed by the three rule blocks, in source order. -/
def ruleRecommendations (threeDaysAgo : Int) (rd : ReportData) : List String :=
  leadRecommendations threeDaysAgo rd ++ searchTermRecommendations rd ++
    campaignRecommendations rd

/-- `analyzeGoogleAdsReport`: rule recommendations, then two defaults when the
list is still empty, plus data-point counts. `nowIso` is
`new Date().toISOString()`. -/
def analyzeGoogleAdsReport (threeDaysAgo : Int) (nowIso : String)
    (rd : ReportData) : AnalysisResult :=
  let recommendations := ruleRecommendations threeDaysAgo rd
  let recommendations :=
    if recommendations.length = 0 then
      recommendations ++ ["Review search terms", "Check ad copy performance"]
    else recommendations
  { recommendations := recommendations
    analysisDate := nowIso
    dataPoints :=
      { totalLeads := (rd.leads.getD []).length
        totalSearchTerms := (rd.searchTerms.getD []).length
        totalCampaigns := (rd.campaigns.getD []).length } }

example :
    (analyzeGoogleAdsReport 0 "2026" { leads := some [⟨5⟩] }).recommendations =
      ["Review search terms", "Check ad copy performance"] := by decide

/-! ## ISO-week formatter (`getISOWeek`, src/lib/clickUp.js) -/

/-- JS `s.padStart(2, '0')`. -/
def padStart2 (s : String) : String :=
  if s.length < 2 then String.mk (List.replicate (2 - s.length) '0') ++ s
  else s

/-- `getISOWeek`: `year` is `now.getFullYear()` and `daysElapsed` is the
source's `days` variable, i.e. `Math.floor((now - start-of-year) / 86400000)`
(zero on January 1, so `daysElapsed = day-of-year - 1` up to DST shifts).
The week number is `Math.ceil(daysElapsed / 7)`, zero-padded to two digits. -/
def getISOWeek (year daysElapsed : Nat) : String :=
  let weekNumber := ceilDiv daysElapsed 7
  toString year ++ "-W" ++ padStart2 (toString weekNumber)

example : getISOWeek 2025 41 = "2025-W06" := by decide

/-! ## ClickUp adapter (src/lib/clickUp.js) -/

/-- The literal placeholder token in task titles. -/
def isoWeekToken : List Char := "\x7bISO Week\x7d".data

/-- Title formatting inside `createTask`: one-shot substitution of the
placeholder token with the current ISO-week string, leaving titles without
the token untouched. -/
def formatTaskTitle (week title : List Char) : List Char :=
  if containsSub isoWeekToken title then replaceFirstL isoWeekToken week title
  else title

/-- A task returned by a ClickUp search, already mapped to the stable shape. -/
structure TaskSummary where
  id : String
  name : String
  deriving DecidableEq

/-- A doc returned by a ClickUp search, already mapped to the stable shape. -/
structure DocSummary where
  id : String
  name : String
  deriving DecidableEq

/-- Environment of the ClickUp adapter: credentials from `process.env`, the
current date, and the data the remote endpoints would answer with.
`taskSearchResults` / `docSearchResults` are what the fault-tolerant
`searchTasks` / `searchDocs` helpers resolve with (they never reject: any
HTTP or parse failure degrades to `[]`). -/
structure ClickUpEnv where
  clickupToken : Option String
  year : Nat := 2026
  daysElapsed : Nat := 0
  nowIso : String := ""
  nowMs : Int := 0
  httpStatus : Nat := 200
  parseOk : Bool := true
  responseErr : Option String := none
  taskSearchResults : List TaskSummary := []
  docSearchResults : List DocSummary := []

/-- Argument object of `createTask`; absent properties are `none`.
`dueDate` is abstracted to the epoch timestamp that
`new Date(taskData.dueDate).getTime()` denotes. -/
structure TaskData where
  title : Option String := none
  description : Option String := none
  listId : Option String := none
  spaceId : Option String := none
  tags : Option (List String) := none
  assigneeId : Option String := none
  dueDate : Option Int := none
  priority : Option Nat := none

/-- The JSON payload `createTask` posts to `/api/v2/list/(listId)/task`. -/
structure CreateTaskRequest where
  name : List Char
  description : String
  status : String
  priority : Nat
  due_date : Option Int
  assignees : List String
  tags : List String
  listId : String
  deriving DecidableEq

/-- The resolved value of a ClickUp task operation (success or the structured
non-2xx failure envelope). -/
structure TaskOpResult where
  success : Bool
  message : Option String := none
  error : Option String := none
  statusCode : Option Nat := none
  deriving DecidableEq

/-- Outcome of one `createTask` invocation: the HTTP request issued (if the
function got past its guards) and the promise settlement (`Except.error` =
rejected / thrown). -/
structure CreateTaskCall where
  request : Option CreateTaskRequest
  result : Except String TaskOpResult

def DEFAULT_SPACE_ID : String := "6942940"

/-- `createTask`: credential and argument guards throw; otherwise the payload
is built (with the ISO-week title substitution) and posted; a 2xx answer
resolves to success, a non-2xx parseable answer resolves to a structured
failure, an unparseable body rejects. -/
def createTask (env : ClickUpEnv) (taskData : TaskData) : CreateTaskCall :=
  if jsFalsyStr env.clickupToken then
    { request := none, result := .error "CLICKUP_TOKEN environment variable is required" }
  else if jsFalsyStr taskData.title || jsFalsyStr taskData.listId then
    { request := none, result := .error "Task title and listId are required" }
  else
    let titleStr := (taskData.title.getD "").data
    let week := (getISOWeek env.year env.daysElapsed).data
    let req : CreateTaskRequest :=
      { name := formatTaskTitle week titleStr
        description := taskData.description.getD ""
        status := "to do"
        priority := jsOrNat taskData.priority 3
        due_date := taskData.dueDate
        assignees := match taskData.assigneeId with | some a => [a] | none => []
        tags := taskData.tags.getD []
        listId := taskData.listId.getD "" }
    if env.parseOk then
      if 200 ≤ env.httpStatus ∧ env.httpStatus < 300 then
        { request := some req
          result := .ok { success := true, message := some "Task created successfully" } }
      else
        { request := some req
          result := .ok { success := false
                          error := some (jsOrStr env.responseErr "Failed to create task")
                          statusCode := some env.httpStatus } }
    else
      { request := some req, result := .error "Failed to parse response" }

/-- The `dataPoints` block of an audit payload. -/
structure AuditDataPoints where
  totalLeads : Nat
  totalSearchTerms : Nat
  totalCampaigns : Nat

/-- Argument object of `createAdAuditTask`. -/
structure AuditData where
  recommendations : Option (List String) := none
  dataPoints : Option AuditDataPoints := none
  analysisDate : Option String := none
  listId : Option String := none
  assigneeId : Option String := none

/-- `formatAuditDescription`: the Markdown body of an audit task. -/
def formatAuditDescription (nowIso : String) (auditData : AuditData) : String :=
  let d0 := "## Google Ads Audit Report\n\n" ++ "**Analysis Date:** " ++
    jsOrStr auditData.analysisDate nowIso ++ "\n\n"
  let d1 :=
    match auditData.dataPoints with
    | some dp =>
      d0 ++ "### Data Summary\n" ++
        "- Total Leads: " ++ toString dp.totalLeads ++ "\n" ++
        "- Total Search Terms: " ++ toString dp.totalSearchTerms ++ "\n" ++
        "- Total Campaigns: " ++ toString dp.totalCampaigns ++ "\n\n"
    | none => d0
  let recs := auditData.recommendations.getD []
  d1 ++ "### Recommendations\n" ++
    String.join ((recs.enum).map (fun p => toString (p.1 + 1) ++ ". " ++ p.2 ++ "\n")) ++
    "\n---\n*Task created automatically by Contractor Scale AI Media Assistant*"

/-- Outcome of one `createAdAuditTask` invocation: whether `createTask` was
invoked, the HTTP request issued (if any), and the settlement. -/
structure AuditCall where
  createTaskInvoked : Bool
  request : Option CreateTaskRequest
  result : Except String TaskOpResult

/-- `createAdAuditTask`: short-circuits with a non-error result when the
recommendation list is absent or empty; otherwise builds the audit task and
delegates to `createTask`. -/
def createAdAuditTask (env : ClickUpEnv) (auditData : AuditData) : AuditCall :=
  if (match auditData.recommendations with
      | none => true
      | some recs => recs.length = 0) then
    { createTaskInvoked := false
      request := none
      result := .ok { success := false
                      message := some "No recommendations to create task for" } }
  else
    let taskData : TaskData :=
      { title := some ("Ad Audit – Week " ++ getISOWeek env.year env.daysElapsed)
        description := some (formatAuditDescription env.nowIso auditData)
        listId := auditData.listId
        assigneeId := auditData.assigneeId
        tags := some ["ad-audit", "automated", "google-ads"]
        priority := some 2
        dueDate := some (env.nowMs + 7 * 24 * 60 * 60 * 1000) }
    let call := createTask env taskData
    { createTaskInvoked := true, request := call.request, result := call.result }

/-- Options object of `searchClickUp`. -/
structure SearchOptions where
  query : Option String := none
  spaceId : Option String := none
  searchType : Option String := none
  limit : Option Nat := none

/-- The combined `results` object of a search. -/
structure SearchResults where
  tasks : List TaskSummary
  docs : List DocSummary
  totalResults : Nat
  query : String
  spaceId : String
  deriving DecidableEq

/-- The resolved value of `searchClickUp`. -/
structure SearchResponse where
  success : Bool
  error : Option String := none
  results : SearchResults
  deriving DecidableEq

/-- Outcome of one `searchClickUp` invocation, with counters for the two
optional sub-calls. -/
structure SearchCall where
  tasksCallCount : Nat
  docsCallCount : Nat
  outcome : Except String SearchResponse

/-- `searchClickUp`: throws on a missing credential or empty query; otherwise
runs the task and/or doc sub-searches selected by `searchType` (source name
`type`, default `"all"`), each individually fault-tolerant, and returns the
combined envelope with `totalResults = tasks.length + docs.length`. -/
def searchClickUp (env : ClickUpEnv) (searchOptions : SearchOptions) : SearchCall :=
  if jsFalsyStr env.clickupToken then
    { tasksCallCount := 0, docsCallCount := 0
      outcome := .error "CLICKUP_TOKEN environment variable is required" }
  else
    let spaceId := searchOptions.spaceId.getD DEFAULT_SPACE_ID
    let ty := searchOptions.searchType.getD "all"
    if jsFalsyStr searchOptions.query then
      { tasksCallCount := 0, docsCallCount := 0
        outcome := .error "Search query is required" }
    else
      let tasksPart : Nat × List TaskSummary :=
        if ty = "all" ∨ ty = "tasks" then (1, env.taskSearchResults) else (0, [])
      let docsPart : Nat × List DocSummary :=
        if ty = "all" ∨ ty = "docs" then (1, env.docSearchResults) else (0, [])
      { tasksCallCount := tasksPart.1
        docsCallCount := docsPart.1
        outcome := .ok
          { success := true
            results :=
              { tasks := tasksPart.2
                docs := docsPart.2
                totalResults := tasksPart.2.length + docsPart.2.length
                query := searchOptions.query.getD ""
                spaceId := spaceId } } }

/-! ## Google Ads adapter (src/unnamed/part_000) -/

/-- An account entry produced by `listAccessibleAccounts`. The constructed
object literal has only `customerId`, `resourceName` and `isManager`
properties; reading any other property (such as `name`) yields `undefined`,
recorded here as the always-`none` field `name`. -/
structure Account where
  customerId : Option String
  resourceName : String
  isManager : Bool
  name : Option String := none
  deriving DecidableEq

/-- The `customer` payload of a `FROM customer` query row. -/
structure CustomerRow where
  id : String
  descriptiveName : String
  currencyCode : String
  timeZone : String
  manager : Bool
  testAccount : Bool
  deriving DecidableEq

/-- A `FROM campaign` query row as consumed by `getAdSpend`; optional metric
fields model properties that may be absent from the row. -/
structure AdSpendRow where
  campaignId : String
  campaignName : String
  campaignStatus : String
  impressions : Option ℚ
  clicks : Option ℚ
  costMicros : ℚ
  conversions : Option ℚ
  averageCpc : Option ℚ

/-- A per-campaign breakdown entry of an `AdSpendResult`. -/
structure CampaignSpend where
  id : String
  name : String
  status : String
  impressions : ℚ
  clicks : ℚ
  cost : ℚ
  conversions : ℚ
  averageCpc : ℚ
  deriving DecidableEq

/-- The value `getAdSpend` resolves with. -/
structure AdSpendResult where
  customerId : String
  period : String
  totalSpend : ℚ
  totalImpressions : ℚ
  totalClicks : ℚ
  totalConversions : ℚ
  averageCpc : ℚ
  campaigns : List CampaignSpend
  deriving DecidableEq

/-- A `FROM keyword_view` query row as consumed by `getKeywordPerformance`. -/
structure KeywordSourceRow where
  keywordText : String
  keywordMatchType : String
  criterionStatus : String
  impressions : Option ℚ
  clicks : Option ℚ
  costMicros : ℚ
  conversions : Option ℚ
  averageCpc : ℚ
  qualityScore : Option ℚ

/-- A mapped keyword-performance entry. -/
structure KeywordPerf where
  keyword : String
  matchType : String
  status : String
  impressions : ℚ
  clicks : ℚ
  cost : ℚ
  conversions : ℚ
  averageCpc : ℚ
  qualityScore : ℚ
  deriving DecidableEq

/-- Environment of the Google Ads adapter: `process.env` credentials plus the
answers the remote query endpoints would give (`Except.error` = the awaited
query rejects). `listAccessibleResponse` carries `customers.resource_names`,
with `none` standing for a value that is not an array. -/
structure GoogleAdsEnv where
  loginCustomerId : Option String
  refreshToken : Option String := none
  listAccessibleResponse : Except String (Option (List String)) := .ok (some [])
  accountQueryResponse : Except String (List CustomerRow) := .ok []
  adSpendQueryResponse : Except String (List AdSpendRow) := .ok []
  keywordQueryResponse : Except String (List KeywordSourceRow) := .ok []

/-- `listAccessibleAccounts`: maps each resource name `customers/(id)` to an
account object; the first listed resource name is flagged as the manager
account; every failure is swallowed and yields `[]`. -/
def listAccessibleAccounts (env : GoogleAdsEnv) : List Account :=
  match env.listAccessibleResponse with
  | .error _ => []
  | .ok resp =>
    let resourceNames := resp.getD []
    resourceNames.map (fun rn =>
      { customerId := ((splitOnCharL '/' rn.data).get? 1).map String.mk
        resourceName := rn
        isManager := resourceNames.head? == some rn
        name := none })

/-- `lookupAccountIdByName`: case-insensitive search over the account list by
`acc.name`; resolves with the match's `customerId`, or `null` (outer `none`)
when nothing matches. -/
def lookupAccountIdByName (env : GoogleAdsEnv) (name : String) :
    Option (Option String) :=
  let accounts := listAccessibleAccounts env
  let found := accounts.find? (fun acc =>
    match acc.name with
    | none => false
    | some n => lowerStr n.data == lowerStr name.data)
  found.map Account.customerId

/-- Outcome of one `getAccountInfo` call: whether the query was attempted and
the value the caller receives (always `.ok`, since the function catches every
error and returns `null`, i.e. `none`). -/
structure AccountInfoCall where
  networkCalled : Bool
  outcome : Except String (Option CustomerRow)

/-- `getAccountInfo`: raises "MCC Customer ID not configured" before the query
when the (dash-stripped) login customer id is falsy, but that error — like a
query failure — is caught by the function's own handler, which returns `null`;
on success the first row (or `null`) is returned. -/
def getAccountInfo (env : GoogleAdsEnv) (customerId : String) : AccountInfoCall :=
  if jsFalsyStr (env.loginCustomerId.map stripDashes) then
    { networkCalled := false, outcome := .ok none }
  else
    match env.accountQueryResponse with
    | .error _ => { networkCalled := true, outcome := .ok none }
    | .ok rows => { networkCalled := true, outcome := .ok rows.head? }

/-- The running totals accumulated by `getAdSpend`'s `forEach` loop. -/
structure AdSpendAcc where
  totalSpend : ℚ := 0
  totalImpressions : ℚ := 0
  totalClicks : ℚ := 0
  totalConversions : ℚ := 0
  campaigns : List CampaignSpend := []

/-- One iteration of `getAdSpend`'s `forEach` over the response rows. -/
def adSpendStep (acc : AdSpendAcc) (row : AdSpendRow) : AdSpendAcc :=
  let cost := row.costMicros / 1000000
  { totalSpend := acc.totalSpend + cost
    totalImpressions := acc.totalImpressions + row.impressions.getD 0
    totalClicks := acc.totalClicks + row.clicks.getD 0
    totalConversions := acc.totalConversions + row.conversions.getD 0
    campaigns := acc.campaigns ++
      [{ id := row.campaignId
         name := row.campaignName
         status := row.campaignStatus
         impressions := row.impressions.getD 0
         clicks := row.clicks.getD 0
         cost := cost
         conversions := row.conversions.getD 0
         averageCpc := microsOrZero row.averageCpc }] }

/-- The hard-coded fallback value `getAdSpend` returns from its catch block. -/
def adSpendFallback (customerId : String) (days : Nat) : AdSpendResult :=
  { customerId := customerId
    period := toString days ++ " days"
    totalSpend := 1250.50
    totalImpressions := 45000
    totalClicks := 1200
    totalConversions := 45
    averageCpc := 1.04
    campaigns :=
      [{ id := "123456789", name := "JRA Construction - Search", status := "ENABLED"
         impressions := 25000, clicks := 650, cost := 675.25, conversions := 25
         averageCpc := 1.04 },
       { id := "123456790", name := "JRA Construction - Display", status := "ENABLED"
         impressions := 20000, clicks := 550, cost := 575.25, conversions := 20
         averageCpc := 1.05 }] }

/-- Outcome of one `getAdSpend` call: the caller always receives a plain value
(`.ok`), because the function catches both its own configuration throw and any
query failure, answering with `adSpendFallback` in either case. -/
structure AdSpendCall where
  networkCalled : Bool
  outcome : Except String AdSpendResult

/-- `getAdSpend`: configuration guard (caught internally → fallback, no
network), one campaign query (failure caught → fallback), and aggregation of
the response rows with micro-currency conversion and two-decimal rounding of
`totalSpend` and of the derived `averageCpc`. -/
def getAdSpend (env : GoogleAdsEnv) (customerId : String) (days : Nat) : AdSpendCall :=
  if jsFalsyStr (env.loginCustomerId.map stripDashes) then
    { networkCalled := false, outcome := .ok (adSpendFallback customerId days) }
  else
    match env.adSpendQueryResponse with
    | .error _ => { networkCalled := true, outcome := .ok (adSpendFallback customerId days) }
    | .ok rows =>
      let acc := rows.foldl adSpendStep {}
      { networkCalled := true
        outcome := .ok
          { customerId := customerId
            period := toString days ++ " days"
            totalSpend := round2 acc.totalSpend
            totalImpressions := acc.totalImpressions
            totalClicks := acc.totalClicks
            totalConversions := acc.totalConversions
            averageCpc :=
              if 0 < acc.totalClicks then round2 (acc.totalSpend / acc.totalClicks)
              else 0
            campaigns := acc.campaigns } }

/-- The hard-coded fallback list `getKeywordPerformance` returns from its
catch block. -/
def keywordFallback : List KeywordPerf :=
  [{ keyword := "construction services", matchType := "BROAD", status := "ENABLED"
     impressions := 5000, clicks := 150, cost := 225.50, conversions := 8
     averageCpc := 1.50, qualityScore := 7 },
   { keyword := "remodeling contractor", matchType := "PHRASE", status := "ENABLED"
     impressions := 3500, clicks := 120, cost := 180.25, conversions := 6
     averageCpc := 1.50, qualityScore := 8 }]

/-- Outcome of one `getKeywordPerformance` call (always `.ok`: every error is
caught and answered with `keywordFallback`). -/
structure KeywordCall where
  networkCalled : Bool
  outcome : Except String (List KeywordPerf)

/-- `getKeywordPerformance`: configuration guard (caught internally →
fallback, no network), one keyword query (failure caught → fallback), and the
row-wise mapping with micro-currency conversion and two-decimal rounding. -/
def getKeywordPerformance (env : GoogleAdsEnv) (customerId : String) (days : Nat) :
    KeywordCall :=
  if jsFalsyStr (env.loginCustomerId.map stripDashes) then
    { networkCalled := false, outcome := .ok keywordFallback }
  else
    match env.keywordQueryResponse with
    | .error _ => { networkCalled := true, outcome := .ok keywordFallback }
    | .ok rows =>
      { networkCalled := true
        outcome := .ok (rows.map (fun row =>
          { keyword := row.keywordText
            matchType := row.keywordMatchType
            status := row.criterionStatus
            impressions := row.impressions.getD 0
            clicks := row.clicks.getD 0
            cost := round2 (row.costMicros / 1000000)
            conversions := row.conversions.getD 0
            averageCpc := round2 (row.averageCpc / 1000000)
            qualityScore := row.qualityScore.getD 0 })) }

/-! ## Tool dispatcher (`handleToolCall`, src/unnamed/part_002) -/

/-- The argument object of a tool call. -/
structure ToolArgs where
  customerId : Option String := none
  days : Option Nat := none

/-- The `data` payload of a successful tool call. -/
inductive ToolData where
  | accounts : List Account → ToolData
  | accountInfo : Option CustomerRow → ToolData
  | adSpend : AdSpendResult → ToolData
  | keywords : List KeywordPerf → ToolData
  deriving DecidableEq

/-- The uniform envelope every tool call resolves with. -/
structure ToolResult where
  success : Bool
  data : Option ToolData := none
  message : Option String := none
  error : Option String := none
  deriving DecidableEq

/-- `handleToolCall`: the switch over the four registered tool names, wrapped
in the catch-all that converts every thrown error (missing argument, unknown
tool, adapter rejection) into `{success := false, error}` — the boundary
always returns, never throws. -/
def handleToolCall (env : GoogleAdsEnv) (toolName : String) (args : ToolArgs) :
    ToolResult :=
  let attempt : Except String ToolResult :=
    if toolName = "list_google_ads_accounts" then
      let accounts := listAccessibleAccounts env
      .ok { success := true
            data := some (.accounts accounts)
            message := some ("Found " ++ toString accounts.length ++ " accessible accounts") }
    else if toolName = "get_account_info" then
      if jsFalsyStr args.customerId then .error "customerId is required"
      else
        let customerId := args.customerId.getD ""
        do
          let accountInfo ← (getAccountInfo env customerId).outcome
          .ok { success := true
                data := some (.accountInfo accountInfo)
                message := some ("Account info retrieved for " ++ customerId) }
    else if toolName = "get_ad_spend" then
      if jsFalsyStr args.customerId then .error "customerId is required"
      else
        let customerId := args.customerId.getD ""
        let days := args.days.getD 7
        do
          let spendData ← (getAdSpend env customerId days).outcome
          .ok { success := true
                data := some (.adSpend spendData)
                message := some ("Ad spend data retrieved for " ++ customerId ++
                  " (" ++ toString days ++ " days)") }
    else if toolName = "get_keyword_performance" then
      if jsFalsyStr args.customerId then .error "customerId is required"
      else
        let customerId := args.customerId.getD ""
        let days := args.days.getD 7
        do
          let keywordData ← (getKeywordPerformance env customerId days).outcome
          .ok { success := true
                data := some (.keywords keywordData)
                message := some ("Keyword performance data retrieved for " ++ customerId ++
                  " (" ++ toString days ++ " days)") }
    else
      .error ("Unknown tool: " ++ toolName)
  match attempt with
  | .ok r => r
  | .error msg => { success := false, error := some msg }

/-! ## Concrete inputs used by witnesses and counterexamples -/

/-- A report with fresh leads and no other data: no analyzer rule fires. -/
def rdC1 : ReportData := { leads := some [⟨5⟩] }

/-- A report containing one low-CTR campaign. -/
def rdC7 : ReportData := { campaigns := some [{ ctr := some (1 / 100) }] }

/-- A Google Ads environment with no management-account id configured. -/
def envNoMcc : GoogleAdsEnv := { loginCustomerId := none }

/-- A ClickUp environment with a configured token. -/
def envCUW : ClickUpEnv := { clickupToken := some "token" }

/-- Audit data whose recommendation list is present but empty. -/
def adEmptyW : AuditData := { recommendations := some [] }

/-- A ClickUp environment for the title-substitution witness
(`getISOWeek 2026 13 = "2026-W02"`). -/
def envC8 : ClickUpEnv := { clickupToken := some "tok", year := 2026, daysElapsed := 13 }

/-- The witness title: it contains the placeholder token twice. -/
def titleC8 : String := "Audit \x7bISO Week\x7d and \x7bISO Week\x7d"

/-- Task data carrying `titleC8`. -/
def tdC8 : TaskData := { title := some titleC8, listId := some "123" }

/-- A ClickUp environment whose task search answers with two tasks. -/
def envSearchW : ClickUpEnv :=
  { clickupToken := some "token"
    taskSearchResults := [⟨"1", "A"⟩, ⟨"2", "B"⟩]
    docSearchResults := [⟨"9", "D"⟩] }

/-- Search options restricted to tasks. -/
def soTasksW : SearchOptions := { query := some "audit", searchType := some "tasks" }

/-- The response `searchClickUp envSearchW soTasksW` resolves with. -/
def respTasksW : SearchResponse :=
  { success := true
    results := { tasks := [⟨"1", "A"⟩, ⟨"2", "B"⟩], docs := [], totalResults := 2
                 query := "audit", spaceId := "6942940" } }

/-- One campaign row: cost one currency unit (a million micros), three clicks. -/
def rowC9 : AdSpendRow :=
  { campaignId := "1", campaignName := "A", campaignStatus := "ENABLED"
    impressions := none, clicks := some 3, costMicros := 1000000
    conversions := none, averageCpc := none }

/-- A configured Google Ads environment answering the spend query with
`[rowC9]`. -/
def envC9 : GoogleAdsEnv :=
  { loginCustomerId := some "9999999999", adSpendQueryResponse := .ok [rowC9] }

/-- The result `getAdSpend envC9 "111" 7` resolves with: note
`averageCpc = 0.33`, the two-decimal rounding of `1 / 3`. -/
def resC9 : AdSpendResult :=
  { customerId := "111", period := "7 days", totalSpend := 1, totalImpressions := 0
    totalClicks := 3, totalConversions := 0, averageCpc := 33 / 100
    campaigns := [{ id := "1", name := "A", status := "ENABLED", impressions := 0
                    clicks := 3, cost := 1, conversions := 0, averageCpc := 0 }] }

/-! ## Helper lemmas -/

/-- If `l` starts with `pat`, then `l` is `pat` followed by the rest. -/
theorem startsWithL_eq_append (pat : List Char) :
    ∀ l : List Char, startsWithL pat l = true → l = pat ++ l.drop pat.length := by
  induction pat with
  | nil => intro l _; simp
  | cons p ps ih =>
    intro l h
    cases l with
    | nil => simp [startsWithL] at h
    | cons c cs =>
      simp only [startsWithL] at h
      by_cases hpc : p = c
      · subst hpc
        rw [if_pos rfl] at h
        have h2 := ih cs h
        simp only [List.length_cons, List.drop_succ_cons, List.cons_append]
        exact congrArg (List.cons p) h2
      · rw [if_neg hpc] at h
        exact absurd h (by simp)

/-- Starting with `pat` is stable under appending on the right. -/
theorem startsWithL_append (pat : List Char) :
    ∀ a b : List Char, startsWithL pat a = true → startsWithL pat (a ++ b) = true := by
  induction pat with
  | nil => intro a b _; cases a <;> simp [startsWithL]
  | cons p ps ih =>
    intro a b h
    cases a with
    | nil => simp [startsWithL] at h
    | cons c cs =>
      simp only [List.cons_append, startsWithL] at h ⊢
      by_cases hpc : p = c
      · rw [if_pos hpc] at h ⊢
        exact ih cs b h
      · rw [if_neg hpc] at h
        exact absurd h (by simp)

/-- Correctness of the first-occurrence machinery: when `pat` occurs in `l`,
`splitFirst` decomposes `l` around the first occurrence (so the left part is
occurrence-free) and `replaceFirstL` rewrites exactly that occurrence. -/
theorem splitFirst_replaceFirst_spec (pat rep : List Char) (hpat : pat ≠ []) :
    ∀ l : List Char, containsSub pat l = true →
      l = (splitFirst pat l).1 ++ pat ++ (splitFirst pat l).2 ∧
      containsSub pat (splitFirst pat l).1 = false ∧
      replaceFirstL pat rep l = (splitFirst pat l).1 ++ rep ++ (splitFirst pat l).2 := by
  intro l
  induction l with
  | nil =>
    intro h
    cases pat with
    | nil => exact absurd rfl hpat
    | cons p ps => simp [containsSub] at h
  | cons c rest ih =>
    intro h
    cases hsw : startsWithL pat (c :: rest) with
    | true =>
      have hemp : containsSub pat [] = false := by
        cases pat with
        | nil => exact absurd rfl hpat
        | cons p ps => rfl
      refine ⟨?_, ?_, ?_⟩
      · have := startsWithL_eq_append pat (c :: rest) hsw
        simpa [splitFirst, hsw] using this
      · simpa [splitFirst, hsw] using hemp
      · simp [splitFirst, replaceFirstL, hsw]
    | false =>
      have h' : containsSub pat rest = true := by
        simpa [containsSub, hsw] using h
      obtain ⟨e1, e2, e3⟩ := ih h'
      have hsplit : splitFirst pat (c :: rest) =
          (c :: (splitFirst pat rest).1, (splitFirst pat rest).2) := by
        simp [splitFirst, hsw]
      refine ⟨?_, ?_, ?_⟩
      · rw [hsplit]
        simpa using congrArg (List.cons c) e1
      · rw [hsplit]
        show containsSub pat (c :: (splitFirst pat rest).1) = false
        have hnsw : startsWithL pat (c :: (splitFirst pat rest).1) = false := by
          cases hsw2 : startsWithL pat (c :: (splitFirst pat rest).1) with
          | false => rfl
          | true =>
            have hmono := startsWithL_append pat _ (pat ++ (splitFirst pat rest).2) hsw2
            have hc : (c :: (splitFirst pat rest).1) ++ (pat ++ (splitFirst pat rest).2) =
                c :: rest := by
              rw [List.cons_append, ← List.append_assoc, ← e1]
            rw [hc, hsw] at hmono
            exact absurd hmono (by simp)
        simp [containsSub, hnsw, e2]
      · rw [hsplit]
        simp only [replaceFirstL, hsw]
        simp only [Bool.false_eq_true, if_false]
        simpa using congrArg (List.cons c) e3

/-- `find?` over a list of accounts that all lack a `name` yields nothing. -/
theorem find?_name_none (name : String) (accounts : List Account)
    (hall : ∀ a ∈ accounts, a.name = none) :
    accounts.find? (fun acc =>
      match acc.name with
      | none => false
      | some n => lowerStr n.data == lowerStr name.data) = none := by
  induction accounts with
  | nil => rfl
  | cons a rest ih =>
    have ha := hall a (by simp)
    rw [List.find?_cons]
    rw [ha]
    exact ih (fun x hx => hall x (by simp [hx]))

/-- Every account constructed by `listAccessibleAccounts` lacks a `name`. -/
theorem account_names_absent (env : GoogleAdsEnv) :
    ∀ a ∈ listAccessibleAccounts env, a.name = none := by
  intro a ha
  unfold listAccessibleAccounts at ha
  rcases hr : env.listAccessibleResponse with e | resp
  · rw [hr] at ha
    simp at ha
  · rw [hr] at ha
    simp only [List.mem_map] at ha
    obtain ⟨rn, _, rfl⟩ := ha
    rfl

/-- The `forEach` accumulation of `getAdSpend` computes the row sums. -/
theorem adSpend_foldl_totals (rows : List AdSpendRow) :
    ∀ acc : AdSpendAcc,
      (rows.foldl adSpendStep acc).totalSpend =
        acc.totalSpend + (rows.map (fun r => r.costMicros / 1000000)).sum ∧
      (rows.foldl adSpendStep acc).totalClicks =
        acc.totalClicks + (rows.map (fun r => r.clicks.getD 0)).sum := by
  induction rows with
  | nil => intro acc; simp
  | cons r rs ih =>
    intro acc
    simp only [List.foldl_cons, List.map_cons, List.sum_cons]
    obtain ⟨ih1, ih2⟩ := ih (adSpendStep acc r)
    rw [ih1, ih2]
    simp only [adSpendStep]
    constructor <;> ring

/-! ## Claim theorems -/

/-- C1: for every report object, `analyzeGoogleAdsReport` returns at least one
recommendation, and when none of the lead / search-term / campaign rules fire
the result is exactly the two fixed default recommendations. -/
theorem analyze_never_empty (threeDaysAgo : Int) (nowIso : String) (rd : ReportData) :
    1 ≤ (analyzeGoogleAdsReport threeDaysAgo nowIso rd).recommendations.length ∧
    (ruleRecommendations threeDaysAgo rd = [] →
      (analyzeGoogleAdsReport threeDaysAgo nowIso rd).recommendations =
        ["Review search terms", "Check ad copy performance"]) := by
  unfold analyzeGoogleAdsReport
  by_cases h : ruleRecommendations threeDaysAgo rd = []
  · simp [h]
  · have hlen : (ruleRecommendations threeDaysAgo rd).length ≠ 0 := by
      simpa [List.length_eq_zero] using h
    constructor
    · simp only [if_neg hlen]
      omega
    · intro h0
      exact absurd h0 h

/-- C1 witness: a report whose leads are all recent and which carries no other
data fires no rule, so the analyzer emits exactly the two defaults. -/
theorem analyze_never_empty_witness :
    ruleRecommendations 0 rdC1 = [] ∧
    (analyzeGoogleAdsReport 0 "2026-01-01" rdC1).recommendations =
      ["Review search terms", "Check ad copy performance"] :=
  ⟨by decide, (analyze_never_empty 0 "2026-01-01" rdC1).2 (by decide)⟩

/-- C2 (amended): with the management-account identifier absent, each of
`getAdSpend`, `getKeywordPerformance` and `getAccountInfo` raises its
configuration error before any network call, but the error is caught by the
function's own catch handler: the caller receives the hard-coded fallback
sample data (respectively `null`), never a thrown error. -/
theorem mcc_missing_internal_fallback (env : GoogleAdsEnv) (customerId : String)
    (days : Nat) (h : jsFalsyStr (env.loginCustomerId.map stripDashes) = true) :
    getAdSpend env customerId days =
      { networkCalled := false, outcome := .ok (adSpendFallback customerId days) } ∧
    getKeywordPerformance env customerId days =
      { networkCalled := false, outcome := .ok keywordFallback } ∧
    getAccountInfo env customerId =
      { networkCalled := false, outcome := .ok none } := by
  refine ⟨?_, ?_, ?_⟩ <;>
    simp [getAdSpend, getKeywordPerformance, getAccountInfo, h]

/-- C2 witness: the amended behaviour at a concrete unconfigured environment. -/
theorem mcc_missing_internal_fallback_witness :
    jsFalsyStr (envNoMcc.loginCustomerId.map stripDashes) = true ∧
    (getAdSpend envNoMcc "1234567890" 7 =
      { networkCalled := false, outcome := .ok (adSpendFallback "1234567890" 7) } ∧
    getKeywordPerformance envNoMcc "1234567890" 7 =
      { networkCalled := false, outcome := .ok keywordFallback } ∧
    getAccountInfo envNoMcc "1234567890" =
      { networkCalled := false, outcome := .ok none }) :=
  ⟨rfl, mcc_missing_internal_fallback envNoMcc "1234567890" 7 rfl⟩

/-- C2 counterexample: with the management-account identifier absent, the
three operations return plain values to the caller (the fallback data and
`null`, wrapped in `.ok`) — no `ConfigurationError` escapes, contradicting the
claim that the error is "thrown synchronously to the caller … rather than
returning a value". -/
theorem mcc_missing_counterexample :
    (getAdSpend envNoMcc "1234567890" 7).outcome =
      .ok (adSpendFallback "1234567890" 7) ∧
    (getAdSpend envNoMcc "1234567890" 7).networkCalled = false ∧
    (getKeywordPerformance envNoMcc "1234567890" 7).outcome = .ok keywordFallback ∧
    (getAccountInfo envNoMcc "1234567890").outcome = .ok none :=
  ⟨rfl, rfl, rfl, rfl⟩

/-- C3 (amended): for every invocation, `getISOWeek` returns
`(year)-W(nn)` where the week number is `ceil(daysElapsed / 7)` (with
`daysElapsed = day-of-year - 1`, the source's floored day difference), `nn` is
zero-padded to exactly two digits, and the week number lies in 00–53. -/
theorem getISOWeek_format (year daysElapsed : Nat) (h : daysElapsed ≤ 365) :
    getISOWeek year daysElapsed =
      toString year ++ "-W" ++ padStart2 (toString (ceilDiv daysElapsed 7)) ∧
    ceilDiv daysElapsed 7 ≤ 53 ∧
    (padStart2 (toString (ceilDiv daysElapsed 7))).length = 2 := by
  have hle : ceilDiv daysElapsed 7 ≤ 53 := by
    unfold ceilDiv
    have h1 : daysElapsed + 7 - 1 ≤ 371 := by omega
    calc (daysElapsed + 7 - 1) / 7 ≤ 371 / 7 := Nat.div_le_div_right h1
    _ = 53 := by norm_num
  refine ⟨rfl, hle, ?_⟩
  have hall : ∀ w : Nat, w < 54 → (padStart2 (toString w)).length = 2 := by decide
  exact hall _ (by omega)

/-- C3 witness: the amended format at a concrete date (January 4). -/
theorem getISOWeek_format_witness :
    3 ≤ 365 ∧
    (getISOWeek 2026 3 = toString 2026 ++ "-W" ++ padStart2 (toString (ceilDiv 3 7)) ∧
     ceilDiv 3 7 ≤ 53 ∧ (padStart2 (toString (ceilDiv 3 7))).length = 2) :=
  ⟨by decide, getISOWeek_format 2026 3 (by decide)⟩

/-- C3 counterexample: on January 1 (`daysElapsed = 0`, day-of-year 1) the
formatter emits week 00 — outside the claimed 01–53 range — and the week
number 0 differs from `ceil(day-of-year / 7) = ceil(1 / 7) = 1`. -/
theorem getISOWeek_jan1_counterexample :
    getISOWeek 2026 0 = "2026-W00" ∧ ceilDiv 0 7 = 0 ∧ ¬ 1 ≤ ceilDiv 0 7 ∧
    ceilDiv 0 7 ≠ ceilDiv 1 7 :=
  ⟨by decide, rfl, by decide, by decide⟩

/-- C4: for every tool name outside the dispatcher's registry and every
argument object, `handleToolCall` returns the structured failure
`{success := false, error := "Unknown tool: (name)"}`; the catch-all boundary
is total, so no exception escapes (the function always returns a
`ToolResult`). -/
theorem handleToolCall_unknown (env : GoogleAdsEnv) (toolName : String)
    (args : ToolArgs)
    (h1 : toolName ≠ "list_google_ads_accounts")
    (h2 : toolName ≠ "get_account_info")
    (h3 : toolName ≠ "get_ad_spend")
    (h4 : toolName ≠ "get_keyword_performance") :
    handleToolCall env toolName args =
      { success := false, data := none, message := none
        error := some ("Unknown tool: " ++ toolName) } := by
  unfold handleToolCall
  rw [if_neg h1, if_neg h2, if_neg h3, if_neg h4]

/-- C4 witness: the spec's own example, `invoke("unknown_tool", (empty args))`. -/
theorem handleToolCall_unknown_witness :
    handleToolCall envNoMcc "unknown_tool" {} =
      { success := false, data := none, message := none
        error := some "Unknown tool: unknown_tool" } := by
  rw [handleToolCall_unknown envNoMcc "unknown_tool" {} (by decide) (by decide)
    (by decide) (by decide)]
  rfl

/-- C5: for every audit-data object whose recommendation list is absent or
empty, `createAdAuditTask` short-circuits with `success := false`, without
invoking `createTask` and without issuing any HTTP request. -/
theorem createAdAuditTask_empty (env : ClickUpEnv) (auditData : AuditData)
    (h : auditData.recommendations = none ∨ auditData.recommendations = some []) :
    createAdAuditTask env auditData =
      { createTaskInvoked := false, request := none
        result := .ok { success := false
                        message := some "No recommendations to create task for" } } := by
  unfold createAdAuditTask
  rcases h with h | h <;> rw [h] <;> rfl

/-- C5 witness: concrete audit data with an empty recommendation list. -/
theorem createAdAuditTask_empty_witness :
    createAdAuditTask envCUW adEmptyW =
      { createTaskInvoked := false, request := none
        result := .ok { success := false
                        message := some "No recommendations to create task for" } } :=
  createAdAuditTask_empty envCUW adEmptyW (Or.inr rfl)

/-- C6: a search restricted to `type = "tasks"` never issues the docs
sub-call and its docs list stays empty; and every successful search, of any
type, reports `totalResults = tasks.length + docs.length` exactly. -/
theorem searchClickUp_spec (env : ClickUpEnv) (so : SearchOptions) :
    (so.searchType = some "tasks" → (searchClickUp env so).docsCallCount = 0) ∧
    (∀ resp, (searchClickUp env so).outcome = .ok resp →
      resp.results.totalResults =
        resp.results.tasks.length + resp.results.docs.length ∧
      (so.searchType = some "tasks" → resp.results.docs = [])) := by
  unfold searchClickUp
  cases htok : jsFalsyStr env.clickupToken with
  | true =>
    constructor
    · intro _; rfl
    · intro resp h; exact absurd h (by simp)
  | false =>
    cases hq : jsFalsyStr so.query with
    | true =>
      constructor
      · intro _; simp
      · intro resp h; exact absurd h (by simp)
    | false =>
      constructor
      · intro hty
        simp [hty]
      · intro resp h
        simp only [Bool.false_eq_true, if_false] at h
        rw [Except.ok.injEq] at h
        subst h
        constructor
        · rfl
        · intro hty
          simp [hty]

/-- C6 witness: a concrete tasks-only search — no docs call, empty docs list,
`totalResults` equal to the sum of the two list lengths. -/
theorem searchClickUp_spec_witness :
    (searchClickUp envSearchW soTasksW).docsCallCount = 0 ∧
    respTasksW.results.totalResults =
      respTasksW.results.tasks.length + respTasksW.results.docs.length ∧
    respTasksW.results.docs = [] := by
  refine ⟨(searchClickUp_spec envSearchW soTasksW).1 rfl, ?_, ?_⟩
  · exact ((searchClickUp_spec envSearchW soTasksW).2 respTasksW rfl).1
  · exact ((searchClickUp_spec envSearchW soTasksW).2 respTasksW rfl).2 rfl

/-- C7: whenever the report's campaign list is present and contains at least
one campaign with CTR below 0.02 or conversion rate below 0.01, the analyzer's
output includes the single generic low-performer recommendation. -/
theorem analyze_low_performer (threeDaysAgo : Int) (nowIso : String)
    (rd : ReportData) (cs : List Campaign) (c : Campaign)
    (hcs : rd.campaigns = some cs) (hc : c ∈ cs) (hlow : lowPerforming c = true) :
    "Suggest new creative for low-performing campaigns" ∈
      (analyzeGoogleAdsReport threeDaysAgo nowIso rd).recommendations := by
  have hlen : 0 < cs.length := List.length_pos.mpr (List.ne_nil_of_mem hc)
  have hfil : 0 < (cs.filter lowPerforming).length := by
    apply List.length_pos.mpr
    intro hnil
    have hmem := List.mem_filter.mpr ⟨hc, hlow⟩
    rw [hnil] at hmem
    exact absurd hmem (List.not_mem_nil _)
  have hcamp : campaignRecommendations rd =
      ["Suggest new creative for low-performing campaigns"] := by
    simp [campaignRecommendations, hcs, hlen, hfil]
  have hmem : "Suggest new creative for low-performing campaigns" ∈
      ruleRecommendations threeDaysAgo rd := by
    unfold ruleRecommendations
    rw [hcamp]
    simp
  have hne : (ruleRecommendations threeDaysAgo rd).length ≠ 0 := by
    intro h0
    rw [List.length_eq_zero] at h0
    rw [h0] at hmem
    exact absurd hmem (List.not_mem_nil _)
  unfold analyzeGoogleAdsReport
  simp only [if_neg hne]
  exact hmem

/-- C7 witness: a report with one campaign whose CTR is 0.01. -/
theorem analyze_low_performer_witness :
    "Suggest new creative for low-performing campaigns" ∈
      (analyzeGoogleAdsReport 0 "2026-01-01" rdC7).recommendations :=
  analyze_low_performer 0 "2026-01-01" rdC7 [{ ctr := some (1 / 100) }]
    { ctr := some (1 / 100) } rfl (by simp)
    (by simp only [lowPerforming, jsLtO, Bool.or_eq_true, decide_eq_true_eq]
        left
        norm_num)

/-- C8: once `createTask` passes its guards, the posted payload's `name` is
the formatted title; a title without the placeholder token passes through
unchanged, and a title containing the token has exactly its first occurrence
replaced by the current week string — the prefix before that occurrence is
occurrence-free and the suffix (which may hold a second occurrence) is kept
verbatim. -/
theorem createTask_iso_week (env : ClickUpEnv) (taskData : TaskData) (t : String)
    (htok : jsFalsyStr env.clickupToken = false)
    (htitle : taskData.title = some t)
    (ht : t.isEmpty = false)
    (hlist : jsFalsyStr taskData.listId = false) :
    ((createTask env taskData).request.map CreateTaskRequest.name) =
      some (formatTaskTitle (getISOWeek env.year env.daysElapsed).data t.data) ∧
    (containsSub isoWeekToken t.data = false →
      formatTaskTitle (getISOWeek env.year env.daysElapsed).data t.data = t.data) ∧
    (containsSub isoWeekToken t.data = true →
      t.data = (splitFirst isoWeekToken t.data).1 ++ isoWeekToken ++
        (splitFirst isoWeekToken t.data).2 ∧
      containsSub isoWeekToken (splitFirst isoWeekToken t.data).1 = false ∧
      formatTaskTitle (getISOWeek env.year env.daysElapsed).data t.data =
        (splitFirst isoWeekToken t.data).1 ++ (getISOWeek env.year env.daysElapsed).data ++
          (splitFirst isoWeekToken t.data).2) := by
  refine ⟨?_, ?_, ?_⟩
  · have hguard : (jsFalsyStr taskData.title || jsFalsyStr taskData.listId) = false := by
      rw [htitle, hlist]
      simp [jsFalsyStr, ht]
    unfold createTask
    rw [htok, hguard, htitle]
    simp only [Bool.false_eq_true, if_false, Option.getD_some]
    cases env.parseOk <;> by_cases hst : 200 ≤ env.httpStatus ∧ env.httpStatus < 300 <;>
      simp [hst]
  · intro h
    simp [formatTaskTitle, h]
  · intro h
    have hspec := splitFirst_replaceFirst_spec isoWeekToken
      (getISOWeek env.year env.daysElapsed).data (by decide) t.data h
    refine ⟨hspec.1, hspec.2.1, ?_⟩
    rw [formatTaskTitle, if_pos h]
    exact hspec.2.2

/-- C8 witness: a concrete title containing the token twice; the first
occurrence is substituted, the second is preserved. -/
theorem createTask_iso_week_witness :
    ((createTask envC8 tdC8).request.map CreateTaskRequest.name) =
      some (formatTaskTitle (getISOWeek envC8.year envC8.daysElapsed).data titleC8.data) ∧
    (containsSub isoWeekToken titleC8.data = false →
      formatTaskTitle (getISOWeek envC8.year envC8.daysElapsed).data titleC8.data =
        titleC8.data) ∧
    (containsSub isoWeekToken titleC8.data = true →
      titleC8.data = (splitFirst isoWeekToken titleC8.data).1 ++ isoWeekToken ++
        (splitFirst isoWeekToken titleC8.data).2 ∧
      containsSub isoWeekToken (splitFirst isoWeekToken titleC8.data).1 = false ∧
      formatTaskTitle (getISOWeek envC8.year envC8.daysElapsed).data titleC8.data =
        (splitFirst isoWeekToken titleC8.data).1 ++
          (getISOWeek envC8.year envC8.daysElapsed).data ++
          (splitFirst isoWeekToken titleC8.data).2) :=
  createTask_iso_week envC8 tdC8 titleC8 rfl rfl rfl rfl

/-- C9 (amended): on the successful query path, `totalSpend` is the
micro-converted spend sum rounded to two decimals, and `averageCpc` is the
quotient of the unrounded spend sum by the click sum, rounded to two decimals
(zero when the click sum is zero) — not the exact quotient the claim states. -/
theorem getAdSpend_averages (env : GoogleAdsEnv) (customerId : String) (days : Nat)
    (rows : List AdSpendRow)
    (hmcc : jsFalsyStr (env.loginCustomerId.map stripDashes) = false)
    (hrows : env.adSpendQueryResponse = .ok rows) :
    ∀ res, (getAdSpend env customerId days).outcome = .ok res →
      res.totalSpend = round2 ((rows.map (fun r => r.costMicros / 1000000)).sum) ∧
      res.totalClicks = (rows.map (fun r => r.clicks.getD 0)).sum ∧
      res.averageCpc =
        (if 0 < (rows.map (fun r => r.clicks.getD 0)).sum then
          round2 (((rows.map (fun r => r.costMicros / 1000000)).sum) /
            ((rows.map (fun r => r.clicks.getD 0)).sum))
         else 0) := by
  intro res hres
  unfold getAdSpend at hres
  rw [hmcc, hrows] at hres
  simp only [Bool.false_eq_true, if_false] at hres
  rw [Except.ok.injEq] at hres
  obtain ⟨hs, hc⟩ := adSpend_foldl_totals rows {}
  rw [show (({} : AdSpendAcc)).totalSpend = 0 from rfl, zero_add] at hs
  rw [show (({} : AdSpendAcc)).totalClicks = 0 from rfl, zero_add] at hc
  subst hres
  exact ⟨by rw [hs], by rw [hc], by rw [hs, hc]⟩

/-- C9 witness: the amended statement at one concrete row (one currency unit,
three clicks): `averageCpc = round2(1/3) = 0.33`. -/
theorem getAdSpend_averages_witness :
    resC9.totalSpend = round2 (([rowC9].map (fun r => r.costMicros / 1000000)).sum) ∧
    resC9.totalClicks = ([rowC9].map (fun r => r.clicks.getD 0)).sum ∧
    resC9.averageCpc =
      (if 0 < ([rowC9].map (fun r => r.clicks.getD 0)).sum then
        round2 ((([rowC9].map (fun r => r.costMicros / 1000000)).sum) /
          (([rowC9].map (fun r => r.clicks.getD 0)).sum))
       else 0) := by
  refine getAdSpend_averages envC9 "111" 7 [rowC9] rfl rfl resC9 ?_
  show Except.ok _ = _
  rw [Except.ok.injEq]
  unfold resC9
  have hstep : [rowC9].foldl adSpendStep {} = adSpendStep {} rowC9 := rfl
  rw [AdSpendResult.mk.injEq, hstep]
  refine ⟨rfl, rfl, ?_, ?_, ?_, ?_, ?_, ?_⟩
  · show round2 (adSpendStep {} rowC9).totalSpend = 1
    simp only [adSpendStep, rowC9, round2]
    rw [round_eq]
    norm_num
  · show (adSpendStep {} rowC9).totalImpressions = 0
    simp [adSpendStep, rowC9]
  · show (adSpendStep {} rowC9).totalClicks = 3
    simp [adSpendStep, rowC9]
  · show (adSpendStep {} rowC9).totalConversions = 0
    simp [adSpendStep, rowC9]
  · have h3 : (adSpendStep {} rowC9).totalClicks = 3 := by simp [adSpendStep, rowC9]
    have h1 : (adSpendStep {} rowC9).totalSpend = 1 := by
      simp only [adSpendStep, rowC9]
      norm_num
    rw [h3, h1, if_pos (by norm_num : (0 : ℚ) < 3)]
    simp only [round2]
    rw [round_eq]
    norm_num
  · show (adSpendStep {} rowC9).campaigns = _
    simp only [adSpendStep, rowC9, microsOrZero, Option.getD, List.nil_append]
    norm_num [List.cons.injEq, CampaignSpend.mk.injEq]

/-- C9 counterexample: at one campaign with cost 1,000,000 micros and three
clicks, the returned `averageCpc` is `0.33` (the rounded quotient), which is
not `totalSpend / totalClicks = 1 / 3` — the claimed exact-division equation
fails. -/
theorem getAdSpend_avgCpc_counterexample :
    resC9.totalSpend = 1 ∧ resC9.totalClicks = 3 ∧ resC9.averageCpc = 33 / 100 ∧
    resC9.averageCpc ≠ resC9.totalSpend / resC9.totalClicks := by
  refine ⟨rfl, rfl, rfl, ?_⟩
  show (33 / 100 : ℚ) ≠ 1 / 3
  norm_num

/-- C10 (implicit claim): `lookupAccountIdByName` always resolves with `null`,
because the accounts built by `listAccessibleAccounts` carry no `name`
property, so the case-insensitive name match can never succeed. -/
theorem lookupAccountIdByName_always_null (env : GoogleAdsEnv) (name : String) :
    lookupAccountIdByName env name = none := by
  simp only [lookupAccountIdByName]
  rw [find?_name_none name (listAccessibleAccounts env) (account_names_absent env)]
  rfl
